import Mathlib

/-!
# AMHUB operator console — verification of the telemetry normalization and
# map-reconciliation engine

Shallow embedding of the core logic of the AMHUB repository:

* `getProjectTopology` (services/apiService.ts): parsing/normalizing the
  upstream topology response into `Device` records;
* `fetchDevices` (App.tsx): the poll cycle — link-health classification and
  snapshot publication;
* the device-marker reconciliation effect (components/MapPicker.tsx):
  incremental create/update/remove of map markers against a marker table.

JavaScript conventions modelled explicitly:
* loosely-typed upstream fields become `Option` fields;
* `x || 0` on numeric fields is `Option.getD 0` (0 is falsy so a present 0 and
  a defaulted 0 agree);
* `a || b` on string fields treats the empty string as falsy;
* `a ?? b` is `Option.orElse`-style matching (only `undefined` falls through);
* numbers are `ℚ` (the claims under study involve no float rounding);
* the `boolean | number` online-status field is a small sum type.
-/

set_option maxHeartbeats 1000000

/-! ## Raw upstream data model (the JSON paths read by `getProjectTopology`) -/

/-- One element of `state.battery.batteries`; only `capacity_percent` is read. -/
structure RawBatteryCell where
  capacity_percent : Option ℚ
  deriving DecidableEq, Repr

/-- The `state.battery` object: a direct percent plus an optional list of cells. -/
structure RawBattery where
  capacity_percent : Option ℚ
  batteries : Option (List RawBatteryCell)
  deriving DecidableEq, Repr

/-- The `state.wireless_link` object; only `sdr_quality` is read. -/
structure RawWirelessLink where
  sdr_quality : Option ℚ
  deriving DecidableEq, Repr

/-- The nested `device_state` object, fields exactly as accessed in the source. -/
structure RawState where
  latitude : Option ℚ
  longitude : Option ℚ
  height : Option ℚ
  elevation : Option ℚ
  horizontal_speed : Option ℚ
  total_flight_time : Option ℚ
  attitude_head : Option ℚ
  heading : Option ℚ
  attitude_pitch : Option ℚ
  attitude_roll : Option ℚ
  battery : Option RawBattery
  wireless_link : Option RawWirelessLink
  deriving DecidableEq, Repr

/-- The `device_offline_position` object. -/
structure RawOfflinePosition where
  latitude : Option ℚ
  longitude : Option ℚ
  deriving DecidableEq, Repr

/-- The `device_model` sub-record. -/
structure RawModel where
  domain : Option ℤ
  name : Option String
  key : Option String
  deriving DecidableEq, Repr

/-- JS value of `device_online_status`: either a boolean or a number. -/
inductive RawOnlineStatus where
  | bool (b : Bool)
  | num (n : ℤ)
  deriving DecidableEq, Repr

/-- The `item.host` record of one topology entry, fields as accessed. -/
structure RawHost where
  domain : Option ℤ
  device_model : Option RawModel
  device_model_key : Option String
  device_sn : Option String
  sn : Option String
  device_online_status : Option RawOnlineStatus
  device_project_callsign : Option String
  device_organization_callsign : Option String
  device_state : Option RawState
  device_offline_position : Option RawOfflinePosition
  deriving DecidableEq, Repr

/-- One entry of `rawData.data.list`; only `host` is read. -/
structure RawItem where
  host : Option RawHost
  deriving DecidableEq, Repr

/-- The validated top-level body: `rawData.code` and `rawData.data.list`. -/
structure RawTopology where
  code : Option ℤ
  list : List RawItem
  deriving DecidableEq, Repr

/-! ## Normalized data model (`types.ts` shapes, reconstructed from usage) -/

/-- `DeviceTelemetry`: all fields numeric, defaulted to 0 when absent. -/
structure DeviceTelemetry where
  latitude : ℚ
  longitude : ℚ
  height : ℚ
  speed : ℚ
  battery_percent : ℚ
  link_signal_quality : ℚ
  flight_time : ℚ
  yaw : ℚ
  pitch : ℚ
  roll : ℚ
  deriving DecidableEq, Repr

/-- A normalized `Device` as pushed by `getProjectTopology`. -/
structure Device where
  device_sn : String
  nickname : String
  device_model : String
  status : Bool
  domain : ℤ
  telemetry : Option DeviceTelemetry
  raw : RawHost
  deriving DecidableEq, Repr

/-- The `TopologyResponse` returned by `getProjectTopology`. -/
structure TopologyResponse where
  code : ℤ
  message : String
  data : List Device
  deriving DecidableEq, Repr

/-! ## JS helper semantics -/

/-- `Number(x || 0)` on an optional numeric field: 0 is falsy, so this is
`getD 0`. -/
def numOr (a : Option ℚ) : ℚ := a.getD 0

/-- `Number(a || b || 0)` on two optional numeric fields. -/
def numOr2 (a b : Option ℚ) : ℚ := if numOr a = 0 then numOr b else numOr a

/-- `a || b` where `a` is an optional string and the empty string is falsy. -/
def strOr (a : Option String) (b : String) : String :=
  match a with
  | some s => if s = "" then b else s
  | none => b

/-- `item.split('-')[0]`: the characters before the first dash. -/
def splitDashHead (s : String) : String :=
  String.mk (s.toList.takeWhile (fun c => c ≠ '-'))

/-- JS `parseInt` on a string: skip leading whitespace, optional sign, then the
longest digit prefix; `none` models `NaN` (no digits). -/
def parseIntJS (s : String) : Option ℤ :=
  match s.toList.dropWhile (fun c => c.isWhitespace) with
  | '-' :: rest =>
    match rest.takeWhile (fun c => c.isDigit) with
    | [] => none
    | ds => some (-(ds.foldl (fun acc c => acc * 10 + (c.toNat - 48)) 0 : ℕ))
  | '+' :: rest =>
    match rest.takeWhile (fun c => c.isDigit) with
    | [] => none
    | ds => some (ds.foldl (fun acc c => acc * 10 + (c.toNat - 48)) 0 : ℕ)
  | cs =>
    match cs.takeWhile (fun c => c.isDigit) with
    | [] => none
    | ds => some (ds.foldl (fun acc c => acc * 10 + (c.toNat - 48)) 0 : ℕ)

/-- Does `p` occur at the start of the second list? -/
def startsWithChars : List Char → List Char → Bool
  | [], _ => true
  | _ :: _, [] => false
  | p :: ps, c :: cs => p = c && startsWithChars ps cs

/-- Does `p` occur anywhere inside the second list? -/
def hasSubChars (p : List Char) : List Char → Bool
  | [] => p.isEmpty
  | c :: cs => startsWithChars p (c :: cs) || hasSubChars p cs

/-- `s.includes(pat)` on strings. -/
def containsSub (s pat : String) : Bool := hasSubChars pat.toList s.toList

/-! ## Telemetry Normalizer (`getProjectTopology` processing loop) -/

/-- `const state = d.device_state || {}`. -/
def emptyState : RawState :=
  ⟨none, none, none, none, none, none, none, none, none, none, none, none⟩

def stOf (h : RawHost) : RawState := h.device_state.getD emptyState

/-- Domain resolution: `d.domain ?? d.device_model?.domain`, else
`parseInt(d.device_model_key.split('-')[0])` when the key is truthy;
`none` models `undefined`/`NaN`. -/
def resolveDomain (h : RawHost) : Option ℤ :=
  match h.domain with
  | some v => some v
  | none =>
    match h.device_model.bind (fun m => m.domain) with
    | some v => some v
    | none =>
      match h.device_model_key with
      | some k => if k = "" then none else parseIntJS (splitDashHead k)
      | none => none

/-- `const sn = d.device_sn || d.sn` (empty string falsy; `""` when both absent,
which the `if (!sn)` guard then drops). -/
def snOf (h : RawHost) : String := strOr h.device_sn (h.sn.getD "")

/-- `d.device_online_status === true || d.device_online_status === 1`. -/
def onlineOf (h : RawHost) : Bool :=
  match h.device_online_status with
  | some (.bool b) => b
  | some (.num n) => n = 1
  | none => false

/-- `d.device_model?.name || d.device_model?.key || "Drone"`. -/
def modelNameOf (h : RawHost) : String :=
  strOr (h.device_model.bind (fun m => m.name))
    (strOr (h.device_model.bind (fun m => m.key)) "Drone")

/-- `d.device_project_callsign || d.device_organization_callsign || modelName`. -/
def nicknameOf (h : RawHost) : String :=
  strOr h.device_project_callsign (strOr h.device_organization_callsign (modelNameOf h))

/-- Position resolution: live lat/lng from `device_state` (`|| 0` each); if both
are exactly zero and `device_offline_position` exists, use its lat/lng. -/
def resolvePos (h : RawHost) : ℚ × ℚ :=
  let lat := numOr (stOf h).latitude
  let lng := numOr (stOf h).longitude
  if lat = 0 ∧ lng = 0 then
    match h.device_offline_position with
    | some op => (numOr op.latitude, numOr op.longitude)
    | none => (lat, lng)
  else (lat, lng)

/-- Battery resolution: direct `capacity_percent ?? 0`; if that is 0 and a
non-empty `batteries` array exists, the first cell's `capacity_percent ?? 0`. -/
def resolveBattery (st : RawState) : ℚ :=
  match st.battery with
  | none => 0
  | some b =>
    let bp := b.capacity_percent.getD 0
    if bp = 0 then
      match b.batteries with
      | some (c :: _) => c.capacity_percent.getD 0
      | _ => bp
    else bp

/-- The telemetry object built inside the processing loop. -/
def mkTelemetry (h : RawHost) : DeviceTelemetry :=
  { latitude := (resolvePos h).1
    longitude := (resolvePos h).2
    height := numOr2 (stOf h).height (stOf h).elevation
    speed := numOr (stOf h).horizontal_speed
    battery_percent := resolveBattery (stOf h)
    link_signal_quality := numOr ((stOf h).wireless_link.bind (fun w => w.sdr_quality))
    flight_time := numOr (stOf h).total_flight_time
    yaw := numOr2 (stOf h).attitude_head (stOf h).heading
    pitch := numOr (stOf h).attitude_pitch
    roll := numOr (stOf h).attitude_roll }

/-- The per-host body of the `rawData.data.list.forEach` loop: `none` models an
early `return` (non-drone domain, or no usable serial). -/
def normalizeHost (h : RawHost) : Option Device :=
  if resolveDomain h ≠ some 0 then none
  else if snOf h = "" then none
  else some
    { device_sn := snOf h
      nickname := nicknameOf h
      device_model := modelNameOf h
      status := onlineOf h
      domain := 0
      telemetry :=
        if (resolvePos h).1 ≠ 0 ∨ (resolvePos h).2 ≠ 0 ∨ onlineOf h = true
        then some (mkTelemetry h) else none
      raw := h }

/-- The whole processing loop over `rawData.data.list` (entries lacking a
`host` sub-record are skipped). -/
def processTopology (items : List RawItem) : List Device :=
  items.filterMap (fun it => it.host.bind normalizeHost)

/-! ## `getProjectTopology` over an abstract HTTP exchange -/

/-- Outcome of the raw `fetch` of the topology endpoint.
* `netError msg`: `fetch` (or response handling) threw; `msg` is `String(error)`.
* `httpError status errText errCode`: `response.ok` was false; `errText` is the
  body text and `errCode` the parsed JSON `code` field of the body (if any).
* `success body`: HTTP 2xx; `body` is the parsed JSON, `none` when the body is
  not JSON or lacks `data.list` (the code throws and lands in the catch). -/
inductive FetchResult where
  | netError (msg : String)
  | httpError (status : ℤ) (errText : String) (errCode : Option ℤ)
  | success (body : Option RawTopology)
  deriving DecidableEq, Repr

/-- `rawData.code || 0`. -/
def jsOrZero (o : Option ℤ) : ℤ :=
  match o with
  | some c => c
  | none => 0

/-- `getProjectTopology` as a function of the abstract HTTP outcome. -/
def topoOfFetch : FetchResult → TopologyResponse
  | .netError msg => ⟨-1, msg, []⟩
  | .httpError st txt ec =>
    let code := match ec with | some c => if c = 0 then st else c | none => st
    let t := txt.take 50
    ⟨code, "Topology API Error: " ++ toString st ++ " - " ++ t, []⟩
  | .success none => ⟨-1, "Error: Invalid topology response structure", []⟩
  | .success (some raw) =>
    let devs := processTopology raw.list
    ⟨jsOrZero raw.code,
      if devs.isEmpty then "No drones detected" else "Success",
      devs⟩

/-- A `FetchResult.httpError` carries an actual non-ok HTTP status:
at least 100 and outside the 2xx range. -/
def statusWellFormedB : FetchResult → Bool
  | .httpError st _ _ => decide (100 ≤ st ∧ (st < 200 ∨ 300 ≤ st))
  | _ => true

/-! ## Poller (`fetchDevices` in App.tsx) -/

/-- `isLinkHealthy : boolean | 'unauthorized'`: `healthy` is `true`,
`unhealthy` is `false`. -/
inductive LinkHealth where
  | healthy
  | unauthorized
  | unhealthy
  deriving DecidableEq, Repr

/-- The poll-owned state touched by `fetchDevices`. -/
structure PollState where
  devices : List Device
  isLinkHealthy : LinkHealth
  lastPollTime : ℕ
  deriving DecidableEq, Repr

/-- One completion of `fetchDevices`: `r = none` models `getProjectTopology`
throwing (the `catch` branch); otherwise the returned response is classified.
`now` is `Date.now()` at the completion. -/
def fetchDevicesApply (s : PollState) (now : ℕ) (r : Option TopologyResponse) : PollState :=
  match r with
  | none => { s with isLinkHealthy := .unhealthy }
  | some resp =>
    if resp.code = 0 then
      { devices := resp.data, isLinkHealthy := .healthy, lastPollTime := now }
    else if resp.code = 200401 ∨ containsSub resp.message "401" = true then
      { s with isLinkHealthy := .unauthorized }
    else
      { s with isLinkHealthy := .unhealthy }

/-- The source applies every completion in completion order (React state
overwrite semantics); the issue sequence number (first component) is ignored. -/
def applyCompletions (s : PollState) (tr : List (ℕ × Option TopologyResponse)) : PollState :=
  tr.foldl (fun st ev => fetchDevicesApply st 0 ev.2) s

/-- Modelled from the spec: the sequence-number guard of §5, which is absent
from the source — each fetch is tagged with a monotonically increasing issue
sequence number and a completion whose sequence is lower than the last applied
one is ignored. -/
def applyCompletionsGuarded (s : PollState) (lastSeq : ℕ)
    (tr : List (ℕ × Option TopologyResponse)) : PollState × ℕ :=
  tr.foldl
    (fun acc ev =>
      if ev.1 < acc.2 then acc else (fetchDevicesApply acc.1 0 ev.2, ev.1))
    (s, lastSeq)

/-! ## Marker Reconciler (device-marker effect in MapPicker.tsx) -/

/-- The icon built by `createIcon`: color and opacity keyed by onlineness,
rotation by yaw. -/
structure DroneIcon where
  color : String
  yaw : ℚ
  opacity : ℚ
  deriving DecidableEq, Repr

/-- The data interpolated into the popup template string. -/
structure PopupData where
  nickname : String
  device_model : String
  status : Bool
  latitude : ℚ
  longitude : ℚ
  speed : ℚ
  height : ℚ
  battery : ℚ
  flight_time : ℚ
  sig : ℚ
  sn : String
  deriving DecidableEq, Repr

/-- `createIcon()` for a device with telemetry `t`. -/
def droneIcon (d : Device) (t : DeviceTelemetry) : DroneIcon :=
  { color := if d.status then "#10b981" else "#ef4444"
    yaw := t.yaw
    opacity := if d.status then 1 else 7/10 }

/-- The popup content bound to a device with telemetry `t`. -/
def popupOf (d : Device) (t : DeviceTelemetry) : PopupData :=
  { nickname := d.nickname
    device_model := d.device_model
    status := d.status
    latitude := t.latitude
    longitude := t.longitude
    speed := t.speed
    height := t.height
    battery := t.battery_percent
    flight_time := t.flight_time
    sig := t.link_signal_quality
    sn := d.device_sn }

/-- `zIndexOffset`: 1000 when online, 500 otherwise. -/
def zOf (d : Device) : ℤ := if d.status then 1000 else 500

/-- The reconciler's record for one live marker. -/
structure MarkerState where
  pos : ℚ × ℚ
  icon : DroneIcon
  popup : PopupData
  popupOpen : Bool
  z : ℤ
  deriving DecidableEq, Repr

/-- The `deviceMarkersRef` table: a JS `Map` keyed by serial, insertion
ordered, modelled as an association list with unique-key operations. -/
abbrev MarkerMap := List (String × MarkerState)

/-- `markersMap.get(sn)`. -/
def alGet : MarkerMap → String → Option MarkerState
  | [], _ => none
  | (k, v) :: rest, sn => if k = sn then some v else alGet rest sn

/-- `markersMap.set(sn, v)`: replace in place if present, else append. -/
def alSet : MarkerMap → String → MarkerState → MarkerMap
  | [], sn, v => [(sn, v)]
  | (k, w) :: rest, sn, v =>
    if k = sn then (k, v) :: rest else (k, w) :: alSet rest sn v

/-- The marker-rendering condition of the effect:
`device.telemetry && (latitude !== 0 || longitude !== 0)`. -/
def devQual (d : Device) : Bool :=
  match d.telemetry with
  | some t => decide (t.latitude ≠ 0 ∨ t.longitude ≠ 0)
  | none => false

/-- One marker mutation issued against the map surface. -/
inductive MapOp where
  | create (sn : String) (pos : ℚ × ℚ) (icon : DroneIcon) (z : ℤ) (popup : PopupData)
  | setPos (sn : String) (pos : ℚ × ℚ)
  | setIcon (sn : String) (icon : DroneIcon)
  | popupSetContent (sn : String) (popup : PopupData)
  | popupBind (sn : String) (popup : PopupData)
  | setZIndex (sn : String) (z : ℤ)
  | remove (sn : String)
  deriving DecidableEq, Repr

/-- Create, remove and position changes are the structural marker mutations;
icon/popup/z refreshes are the unconditionally re-issued ones. -/
def MapOp.structural : MapOp → Bool
  | .create _ _ _ _ _ => true
  | .remove _ => true
  | .setPos _ _ => true
  | _ => false

/-- The marker state written for a device on update (`po` preserves the prior
popup-open flag) or create (`po = false`). -/
def updatedMarker (d : Device) (t : DeviceTelemetry) (po : Bool) : MarkerState :=
  { pos := (t.latitude, t.longitude)
    icon := droneIcon d t
    popup := popupOf d t
    popupOpen := po
    z := zOf d }

/-- The mutations issued on the update branch for an existing marker `mk`:
`setLatLng` only when the position changed, then `setIcon`, then popup
content push (open) or rebind (closed), then `setZIndexOffset`. -/
def stepOps (d : Device) (t : DeviceTelemetry) (mk : MarkerState) : List MapOp :=
  (if mk.pos ≠ (t.latitude, t.longitude)
    then [MapOp.setPos d.device_sn (t.latitude, t.longitude)] else [])
  ++ [MapOp.setIcon d.device_sn (droneIcon d t)]
  ++ (if mk.popupOpen
      then [MapOp.popupSetContent d.device_sn (popupOf d t)]
      else [MapOp.popupBind d.device_sn (popupOf d t)])
  ++ [MapOp.setZIndex d.device_sn (zOf d)]

/-- Result of the `devices.forEach` pass: issued ops, the mutated marker
table, and the accumulated `activeSns`. -/
structure RecResult where
  ops : List MapOp
  markers : MarkerMap
  active : List String
  deriving DecidableEq, Repr

/-- The `devices.forEach` pass of the effect. -/
def reconcileCore : List Device → MarkerMap → List String → RecResult
  | [], m, a => ⟨[], m, a⟩
  | d :: ds, m, a =>
    match d.telemetry with
    | none => reconcileCore ds m a
    | some t =>
      if t.latitude ≠ 0 ∨ t.longitude ≠ 0 then
        match alGet m d.device_sn with
        | some mk =>
          let r := reconcileCore ds
            (alSet m d.device_sn (updatedMarker d t mk.popupOpen)) (d.device_sn :: a)
          ⟨stepOps d t mk ++ r.ops, r.markers, r.active⟩
        | none =>
          let r := reconcileCore ds
            (alSet m d.device_sn (updatedMarker d t false)) (d.device_sn :: a)
          ⟨MapOp.create d.device_sn (t.latitude, t.longitude) (droneIcon d t)
              (zOf d) (popupOf d t) :: r.ops,
            r.markers, r.active⟩
      else reconcileCore ds m a

/-- The `activeSns` accumulation alone (it never depends on the marker table). -/
def activeList : List Device → List String → List String
  | [], a => a
  | d :: ds, a =>
    if devQual d then activeList ds (d.device_sn :: a) else activeList ds a

/-- The whole device-marker effect: the `forEach` pass followed by the removal
sweep over the marker table (`marker.remove()` plus table deletion for every
serial not in `activeSns`). -/
def reconcile (devs : List Device) (m : MarkerMap) : List MapOp × MarkerMap :=
  ((reconcileCore devs m []).ops
      ++ ((reconcileCore devs m []).markers.filter
            (fun e => ¬ e.1 ∈ (reconcileCore devs m []).active)).map
          (fun e => MapOp.remove e.1),
    (reconcileCore devs m []).markers.filter
      (fun e => e.1 ∈ (reconcileCore devs m []).active))

/-! ## Association-list lemmas -/

theorem alGet_alSet (m : MarkerMap) (k k' : String) (v : MarkerState) :
    alGet (alSet m k v) k' = if k = k' then some v else alGet m k' := by
  induction m with
  | nil => simp [alGet, alSet]
  | cons e rest ih =>
    obtain ⟨k0, w⟩ := e
    by_cases h0 : k0 = k
    · subst h0
      by_cases h : k0 = k' <;> simp [alGet, alSet, h]
    · by_cases h1 : k0 = k'
      · subst h1
        have h2 : ¬ k = k0 := fun hk => h0 hk.symm
        simp [alGet, alSet, h0, h2]
      · simp [alGet, alSet, h0, h1, ih]

theorem alSet_self (m : MarkerMap) (k : String) (v : MarkerState)
    (h : alGet m k = some v) : alSet m k v = m := by
  induction m with
  | nil => simp [alGet] at h
  | cons e rest ih =>
    obtain ⟨k0, w⟩ := e
    by_cases h0 : k0 = k
    · subst h0
      simp [alGet] at h
      simp [alSet, h]
    · simp [alGet, h0] at h
      simp [alSet, h0, ih h]

theorem mem_of_alGet_eq_some {m : MarkerMap} {k : String} {v : MarkerState}
    (h : alGet m k = some v) : (k, v) ∈ m := by
  induction m with
  | nil => simp [alGet] at h
  | cons e rest ih =>
    obtain ⟨k0, w⟩ := e
    by_cases h0 : k0 = k
    · subst h0
      simp [alGet] at h
      simp [h]
    · simp [alGet, h0] at h
      exact List.mem_cons_of_mem _ (ih h)

theorem alGet_filterP (m : MarkerMap) (p : String → Bool) (x : String) :
    alGet (m.filter (fun e => p e.1)) x = if p x = true then alGet m x else none := by
  induction m with
  | nil => simp [alGet]
  | cons e rest ih =>
    obtain ⟨k0, w⟩ := e
    by_cases hp : p k0 = true
    · by_cases h0 : k0 = x
      · subst h0
        simp [List.filter_cons, hp, alGet, ih]
      · simp [List.filter_cons, hp, alGet, h0, ih]
    · by_cases h0 : k0 = x
      · subst h0
        simp [List.filter_cons, hp, alGet, ih]
      · simp [List.filter_cons, hp, alGet, h0, ih]

/-! ## Reconciler pass lemmas -/

theorem devQual_eq_true {d : Device} :
    devQual d = true ↔
      ∃ t, d.telemetry = some t ∧ (t.latitude ≠ 0 ∨ t.longitude ≠ 0) := by
  cases h : d.telemetry <;> simp [devQual, h]

theorem reconcileCore_active (devs : List Device) (m : MarkerMap) (a : List String) :
    (reconcileCore devs m a).active = activeList devs a := by
  induction devs generalizing m a with
  | nil => rfl
  | cons d ds ih =>
    cases ht : d.telemetry with
    | none => simp [reconcileCore, activeList, devQual, ht, ih]
    | some t =>
      by_cases hq : t.latitude ≠ 0 ∨ t.longitude ≠ 0
      · cases hg : alGet m d.device_sn <;>
          simp [reconcileCore, activeList, devQual, ht, hq, hg, ih]
      · simp [reconcileCore, activeList, devQual, ht, hq, ih]

theorem mem_activeList {x : String} (devs : List Device) (a : List String) :
    x ∈ activeList devs a ↔
      x ∈ a ∨ ∃ d ∈ devs, devQual d = true ∧ x = d.device_sn := by
  induction devs generalizing a with
  | nil => simp [activeList]
  | cons d ds ih =>
    by_cases hq : devQual d = true
    · simp [activeList, hq, ih, List.mem_cons]
      tauto
    · simp [activeList, hq, ih]

theorem reconcileCore_cons_none {d : Device} (ds : List Device) (m : MarkerMap)
    (a : List String) (ht : d.telemetry = none) :
    reconcileCore (d :: ds) m a = reconcileCore ds m a := by
  simp [reconcileCore, ht]

theorem reconcileCore_cons_zero {d : Device} {t : DeviceTelemetry} (ds : List Device)
    (m : MarkerMap) (a : List String) (ht : d.telemetry = some t)
    (hq : ¬ (t.latitude ≠ 0 ∨ t.longitude ≠ 0)) :
    reconcileCore (d :: ds) m a = reconcileCore ds m a := by
  simp [reconcileCore, ht, hq]

theorem reconcileCore_cons_upd {d : Device} {t : DeviceTelemetry} {mk : MarkerState}
    (ds : List Device) (m : MarkerMap) (a : List String) (ht : d.telemetry = some t)
    (hq : t.latitude ≠ 0 ∨ t.longitude ≠ 0) (hg : alGet m d.device_sn = some mk) :
    reconcileCore (d :: ds) m a =
      ⟨stepOps d t mk
          ++ (reconcileCore ds (alSet m d.device_sn (updatedMarker d t mk.popupOpen))
              (d.device_sn :: a)).ops,
        (reconcileCore ds (alSet m d.device_sn (updatedMarker d t mk.popupOpen))
          (d.device_sn :: a)).markers,
        (reconcileCore ds (alSet m d.device_sn (updatedMarker d t mk.popupOpen))
          (d.device_sn :: a)).active⟩ := by
  simp [reconcileCore, ht, hq, hg]

theorem reconcileCore_cons_new {d : Device} {t : DeviceTelemetry}
    (ds : List Device) (m : MarkerMap) (a : List String) (ht : d.telemetry = some t)
    (hq : t.latitude ≠ 0 ∨ t.longitude ≠ 0) (hg : alGet m d.device_sn = none) :
    reconcileCore (d :: ds) m a =
      ⟨MapOp.create d.device_sn (t.latitude, t.longitude) (droneIcon d t) (zOf d) (popupOf d t)
          :: (reconcileCore ds (alSet m d.device_sn (updatedMarker d t false))
              (d.device_sn :: a)).ops,
        (reconcileCore ds (alSet m d.device_sn (updatedMarker d t false))
          (d.device_sn :: a)).markers,
        (reconcileCore ds (alSet m d.device_sn (updatedMarker d t false))
          (d.device_sn :: a)).active⟩ := by
  simp [reconcileCore, ht, hq, hg]

theorem alGet_reconcileCore_isSome (devs : List Device) (m : MarkerMap)
    (a : List String) (x : String) :
    (alGet (reconcileCore devs m a).markers x).isSome = true ↔
      (alGet m x).isSome = true ∨ ∃ d ∈ devs, devQual d = true ∧ x = d.device_sn := by
  induction devs generalizing m a with
  | nil => simp [reconcileCore]
  | cons d ds ih =>
    cases ht : d.telemetry with
    | none =>
      rw [reconcileCore_cons_none ds m a ht, ih]
      simp [devQual, ht]
    | some t =>
      by_cases hq : t.latitude ≠ 0 ∨ t.longitude ≠ 0
      · have hdq : devQual d = true := devQual_eq_true.mpr ⟨t, ht, hq⟩
        by_cases hx : x = d.device_sn
        · subst hx
          cases hg : alGet m d.device_sn with
          | some mk =>
            rw [reconcileCore_cons_upd ds m a ht hq hg]
            constructor
            · intro _
              exact Or.inr ⟨d, List.mem_cons_self d ds, hdq, rfl⟩
            · intro _
              rw [ih]
              left
              simp [alGet_alSet]
          | none =>
            rw [reconcileCore_cons_new ds m a ht hq hg]
            constructor
            · intro _
              exact Or.inr ⟨d, List.mem_cons_self d ds, hdq, rfl⟩
            · intro _
              rw [ih]
              left
              simp [alGet_alSet]
        · have hxs : ¬ d.device_sn = x := fun hh => hx hh.symm
          cases hg : alGet m d.device_sn with
          | some mk =>
            rw [reconcileCore_cons_upd ds m a ht hq hg, ih, alGet_alSet]
            simp only [hxs, if_false]
            simp [List.mem_cons, hx]
          | none =>
            rw [reconcileCore_cons_new ds m a ht hq hg, ih, alGet_alSet]
            simp only [hxs, if_false]
            simp [List.mem_cons, hx]
      · have hdq : devQual d = false := by
          simp only [devQual, ht]
          simp [hq]
        rw [reconcileCore_cons_zero ds m a ht hq, ih]
        simp [hdq]

theorem alGet_reconcileCore_of_ne (devs : List Device) (m : MarkerMap)
    (a : List String) (x : String) (h : ∀ d ∈ devs, d.device_sn ≠ x) :
    alGet (reconcileCore devs m a).markers x = alGet m x := by
  induction devs generalizing m a with
  | nil => rfl
  | cons d ds ih =>
    have hd : d.device_sn ≠ x := h d (List.mem_cons_self d ds)
    have hrest : ∀ d' ∈ ds, d'.device_sn ≠ x :=
      fun d' hd' => h d' (List.mem_cons_of_mem d hd')
    cases ht : d.telemetry with
    | none => rw [reconcileCore_cons_none ds m a ht, ih _ _ hrest]
    | some t =>
      by_cases hq : t.latitude ≠ 0 ∨ t.longitude ≠ 0
      · cases hg : alGet m d.device_sn with
        | some mk =>
          rw [reconcileCore_cons_upd ds m a ht hq hg]
          rw [ih _ _ hrest, alGet_alSet]
          simp [hd]
        | none =>
          rw [reconcileCore_cons_new ds m a ht hq hg]
          rw [ih _ _ hrest, alGet_alSet]
          simp [hd]
      · rw [reconcileCore_cons_zero ds m a ht hq, ih _ _ hrest]

theorem alGet_reconcileCore_nodup {d : Device} {t : DeviceTelemetry}
    (devs : List Device) (m : MarkerMap) (a : List String)
    (hnd : (devs.map Device.device_sn).Nodup)
    (hmem : d ∈ devs) (ht : d.telemetry = some t)
    (hq : t.latitude ≠ 0 ∨ t.longitude ≠ 0) :
    ∃ po, alGet (reconcileCore devs m a).markers d.device_sn
      = some (updatedMarker d t po) := by
  induction devs generalizing m a with
  | nil => cases hmem
  | cons d0 ds ih =>
    rcases List.mem_cons.mp hmem with heq | hmem'
    · subst heq
      have hds : ∀ d' ∈ ds, d'.device_sn ≠ d.device_sn := by
        intro d' hd' hcon
        have := (List.nodup_cons.mp hnd).1
        exact this (hcon ▸ List.mem_map_of_mem Device.device_sn hd')
      cases hg : alGet m d.device_sn with
      | some mk =>
        refine ⟨mk.popupOpen, ?_⟩
        rw [reconcileCore_cons_upd ds m a ht hq hg]
        rw [alGet_reconcileCore_of_ne ds _ _ _ hds, alGet_alSet]
        simp
      | none =>
        refine ⟨false, ?_⟩
        rw [reconcileCore_cons_new ds m a ht hq hg]
        rw [alGet_reconcileCore_of_ne ds _ _ _ hds, alGet_alSet]
        simp
    · have hnd' : (ds.map Device.device_sn).Nodup := (List.nodup_cons.mp hnd).2
      cases ht0 : d0.telemetry with
      | none =>
        rw [reconcileCore_cons_none ds m a ht0]
        exact ih m a hnd' hmem'
      | some t0 =>
        by_cases hq0 : t0.latitude ≠ 0 ∨ t0.longitude ≠ 0
        · cases hg0 : alGet m d0.device_sn with
          | some mk =>
            rw [reconcileCore_cons_upd ds m a ht0 hq0 hg0]
            exact ih _ _ hnd' hmem'
          | none =>
            rw [reconcileCore_cons_new ds m a ht0 hq0 hg0]
            exact ih _ _ hnd' hmem'
        · rw [reconcileCore_cons_zero ds m a ht0 hq0]
          exact ih m a hnd' hmem'

/-- The marker table already reflects every renderable device of the snapshot
(up to the popup-open flag, which reconciliation preserves). -/
def syncedWith (devs : List Device) (m : MarkerMap) : Prop :=
  ∀ d ∈ devs, ∀ t, d.telemetry = some t → (t.latitude ≠ 0 ∨ t.longitude ≠ 0) →
    ∃ po, alGet m d.device_sn = some (updatedMarker d t po)

theorem stepOps_self_nonstructural (d : Device) (t : DeviceTelemetry) (po : Bool) :
    ∀ op ∈ stepOps d t (updatedMarker d t po), op.structural = false := by
  intro op hop
  cases po <;>
    · simp [stepOps, updatedMarker] at hop
      rcases hop with rfl | rfl | rfl <;> rfl

theorem reconcileCore_synced (devs : List Device) (m : MarkerMap) (a : List String)
    (h : syncedWith devs m) :
    (reconcileCore devs m a).markers = m ∧
      ∀ op ∈ (reconcileCore devs m a).ops, op.structural = false := by
  induction devs generalizing a with
  | nil => simp [reconcileCore]
  | cons d ds ih =>
    have hrest : syncedWith ds m :=
      fun d' hd' t' ht' hq' => h d' (List.mem_cons_of_mem d hd') t' ht' hq'
    cases ht : d.telemetry with
    | none =>
      rw [reconcileCore_cons_none ds m a ht]
      exact ih a hrest
    | some t =>
      by_cases hq : t.latitude ≠ 0 ∨ t.longitude ≠ 0
      · obtain ⟨po, hpo⟩ := h d (List.mem_cons_self d ds) t ht hq
        rw [reconcileCore_cons_upd ds m a ht hq hpo]
        have hpop : (updatedMarker d t po).popupOpen = po := rfl
        have hset : alSet m d.device_sn
            (updatedMarker d t ((updatedMarker d t po).popupOpen)) = m := by
          rw [hpop]
          exact alSet_self m d.device_sn (updatedMarker d t po) hpo
        rw [hset]
        obtain ⟨ihm, ihops⟩ := ih (d.device_sn :: a) hrest
        refine ⟨ihm, ?_⟩
        intro op hop
        rcases List.mem_append.mp hop with hstep | htail
        · exact stepOps_self_nonstructural d t po op hstep
        · exact ihops op htail
      · rw [reconcileCore_cons_zero ds m a ht hq]
        exact ih a hrest

theorem alGet_filterMem (m : MarkerMap) (act : List String) (x : String) :
    alGet (m.filter (fun e => e.1 ∈ act)) x =
      if x ∈ act then alGet m x else none := by
  induction m with
  | nil => simp [alGet]
  | cons e rest ih =>
    obtain ⟨k0, w⟩ := e
    by_cases hp : k0 ∈ act
    · by_cases h0 : k0 = x
      · subst h0
        simp [List.filter_cons, hp, alGet, ih]
      · simp [List.filter_cons, hp, alGet, h0, ih]
    · by_cases h0 : k0 = x
      · subst h0
        simp [List.filter_cons, hp, alGet, ih]
      · simp [List.filter_cons, hp, alGet, h0, ih]

theorem remove_mem_of_not_active (m : MarkerMap) (act : List String)
    {x : String} {v : MarkerState}
    (hv : alGet m x = some v) (hx : ¬ x ∈ act) :
    MapOp.remove x ∈ (m.filter (fun e => ¬ e.1 ∈ act)).map (fun e => MapOp.remove e.1) := by
  refine List.mem_map.mpr ⟨(x, v), ?_, rfl⟩
  refine List.mem_filter.mpr ⟨mem_of_alGet_eq_some hv, ?_⟩
  simpa using hx

/-! ## Claim C1 -/

/-- C1 (amended form): after the device-marker reconciliation pass, the marker
table contains a marker for a serial iff some device in the new snapshot with
that serial has a telemetry sub-record with a non-zero position; and every
previously-tracked serial with no such device has its marker removed (a
`remove` mutation is issued) and its table entry deleted in the same pass. -/
theorem marker_table_iff_nonzero_telemetry (devs : List Device) (mks : MarkerMap)
    (x : String) :
    ((alGet (reconcile devs mks).2 x).isSome = true ↔
      ∃ d ∈ devs, devQual d = true ∧ x = d.device_sn) ∧
    ((alGet mks x).isSome = true →
      (¬ ∃ d ∈ devs, devQual d = true ∧ x = d.device_sn) →
      MapOp.remove x ∈ (reconcile devs mks).1 ∧ alGet (reconcile devs mks).2 x = none) := by
  have hact : (reconcileCore devs mks []).active = activeList devs [] :=
    reconcileCore_active devs mks []
  have hmemact : x ∈ (reconcileCore devs mks []).active ↔
      ∃ d ∈ devs, devQual d = true ∧ x = d.device_sn := by
    rw [hact, mem_activeList]
    simp
  constructor
  · simp only [reconcile]
    rw [alGet_filterMem]
    by_cases hx : x ∈ (reconcileCore devs mks []).active
    · rw [if_pos hx]
      constructor
      · intro _
        exact hmemact.mp hx
      · intro _
        exact (alGet_reconcileCore_isSome devs mks [] x).mpr (Or.inr (hmemact.mp hx))
    · rw [if_neg hx]
      constructor
      · intro hcon
        simp at hcon
      · intro hex
        exact absurd (hmemact.mpr hex) hx
  · intro hsome hnex
    have hxact : ¬ x ∈ (reconcileCore devs mks []).active :=
      fun hx => hnex (hmemact.mp hx)
    have hms : (alGet (reconcileCore devs mks []).markers x).isSome = true :=
      (alGet_reconcileCore_isSome devs mks [] x).mpr (Or.inl hsome)
    obtain ⟨v, hv⟩ := Option.isSome_iff_exists.mp hms
    constructor
    · simp only [reconcile]
      exact List.mem_append_right _
        (remove_mem_of_not_active _ _ hv hxact)
    · simp only [reconcile]
      rw [alGet_filterMem, if_neg hxact]

/-- An all-zero telemetry record. -/
def telZero : DeviceTelemetry := ⟨0, 0, 0, 0, 0, 0, 0, 0, 0, 0⟩

/-- A raw host with every field absent. -/
def emptyHost : RawHost := ⟨none, none, none, none, none, none, none, none, none, none⟩

/-- An online device whose telemetry is present but positioned at (0, 0). -/
def devC1zero : Device := ⟨"C1-ZERO", "Zero", "M350", true, 0, some telZero, emptyHost⟩

/-- C1 counterexample: the claim says the marker table holds a marker for a
serial iff some device with that serial has a telemetry sub-record present.
`devC1zero` is online with telemetry present (at position (0, 0)), yet after
reconciling the snapshot `[devC1zero]` against an empty table the table is
still empty: the effect also requires a non-zero position. -/
theorem marker_absent_despite_telemetry :
    devC1zero.telemetry.isSome = true ∧ (reconcile [devC1zero] []).2 = [] := by
  constructor
  · rfl
  · rfl

/-- Telemetry at a non-zero position. -/
def telC1 : DeviceTelemetry := ⟨10, 20, 0, 0, 0, 0, 0, 0, 0, 0⟩

/-- A renderable device for the C1 witness. -/
def devC1 : Device := ⟨"C1-LIVE", "Live", "M350", true, 0, some telC1, emptyHost⟩

/-- A stale marker-table entry for the C1 witness. -/
def mkOldC1 : MarkerState :=
  ⟨(5, 5), ⟨"#10b981", 0, 1⟩, ⟨"Old", "M", true, 5, 5, 0, 0, 0, 0, 0, "C1-OLD"⟩, false, 1000⟩

/-- C1 witness: a previously-tracked serial absent from the new snapshot gets a
`remove` mutation, and the new snapshot's renderable device gets a table entry. -/
theorem marker_table_iff_nonzero_telemetry_witness :
    MapOp.remove "C1-OLD" ∈ (reconcile [devC1] [("C1-OLD", mkOldC1)]).1 ∧
      (alGet (reconcile [devC1] [("C1-OLD", mkOldC1)]).2 "C1-LIVE").isSome = true := by
  constructor
  · exact ((marker_table_iff_nonzero_telemetry [devC1] [("C1-OLD", mkOldC1)] "C1-OLD").2
      (by decide) (by decide)).1
  · exact (marker_table_iff_nonzero_telemetry [devC1] [("C1-OLD", mkOldC1)] "C1-LIVE").1.mpr
      ⟨devC1, by decide, by decide, by decide⟩

/-! ## Claim C6 -/

/-- C6 (amended form): reconciling the same snapshot (with the DeviceSnapshot
no-duplicate-serial invariant) twice in a row leaves the marker table
unchanged and produces no structural marker mutation — no create, no remove,
no position change — on the second call; the non-structural icon/popup/z-order
refreshes are re-issued unconditionally. -/
theorem reconcile_idempotent_structurally (devs : List Device) (m0 : MarkerMap)
    (hnd : (devs.map Device.device_sn).Nodup) :
    (reconcile devs (reconcile devs m0).2).2 = (reconcile devs m0).2 ∧
      ∀ op ∈ (reconcile devs (reconcile devs m0).2).1, op.structural = false := by
  set m1 := (reconcile devs m0).2 with hm1
  have hsync : syncedWith devs m1 := by
    intro d hd t ht hq
    have hdq : devQual d = true := devQual_eq_true.mpr ⟨t, ht, hq⟩
    have hxact : d.device_sn ∈ (reconcileCore devs m0 []).active := by
      rw [reconcileCore_active, mem_activeList]
      exact Or.inr ⟨d, hd, hdq, rfl⟩
    obtain ⟨po, hpo⟩ := alGet_reconcileCore_nodup devs m0 [] hnd hd ht hq
    refine ⟨po, ?_⟩
    rw [hm1]
    simp only [reconcile]
    rw [alGet_filterMem, if_pos hxact, hpo]
  obtain ⟨hcm, hcops⟩ := reconcileCore_synced devs m1 [] hsync
  have hsub : ∀ e ∈ m1, e.1 ∈ (reconcileCore devs m1 []).active := by
    intro e he
    rw [reconcileCore_active, mem_activeList]
    rw [hm1] at he
    simp only [reconcile] at he
    have hmf := List.mem_filter.mp he
    have hmem0 : e.1 ∈ (reconcileCore devs m0 []).active := by
      simpa using hmf.2
    rw [reconcileCore_active, mem_activeList] at hmem0
    simpa using hmem0
  constructor
  · simp only [reconcile]
    rw [hcm]
    exact List.filter_eq_self.mpr (fun e he => by simpa using hsub e he)
  · simp only [reconcile]
    intro op hop
    rcases List.mem_append.mp hop with hcore | hrem
    · exact hcops op hcore
    · rw [hcm] at hrem
      have hnil : m1.filter
          (fun e => ¬ e.1 ∈ (reconcileCore devs m1 []).active) = [] := by
        refine List.filter_eq_nil_iff.mpr ?_
        intro e he
        simp [hsub e he]
      rw [hnil] at hrem
      simp at hrem

/-- Telemetry for the C6 devices. -/
def telC6 : DeviceTelemetry := ⟨3, 4, 0, 0, 0, 0, 0, 90, 0, 0⟩

/-- A renderable device for C6. -/
def devC6 : Device := ⟨"C6-DRONE", "Six", "M30", true, 0, some telC6, emptyHost⟩

/-- C6 counterexample: reconciling the snapshot `[devC6]` twice in a row still
emits marker mutations on the second call — in particular an icon refresh —
because the effect re-issues `setIcon`, popup rebinding and `setZIndexOffset`
unconditionally for every rendered device. -/
theorem second_reconcile_emits_refresh_ops :
    (reconcile [devC6] (reconcile [devC6] []).2).1 ≠ [] ∧
      MapOp.setIcon "C6-DRONE" (droneIcon devC6 telC6)
        ∈ (reconcile [devC6] (reconcile [devC6] []).2).1 := by
  constructor
  · decide
  · decide

/-- C6 witness: at the concrete snapshot `[devC6]`, the second reconciliation
leaves the marker table unchanged and issues no structural mutation. -/
theorem reconcile_idempotent_structurally_witness :
    (reconcile [devC6] (reconcile [devC6] []).2).2 = (reconcile [devC6] []).2 := by
  exact (reconcile_idempotent_structurally [devC6] [] (by decide)).1

/-! ## Claim C2 -/

/-- A device published by fetch #1 in the C2 race. -/
def devC2 : Device := ⟨"C2-SN", "Two", "M2", true, 0, none, emptyHost⟩

/-- Fetch #1: issued first (sequence 1), completes last. -/
def respC2first : TopologyResponse := ⟨0, "Success", [devC2]⟩

/-- Fetch #2: issued second (sequence 2), completes first. -/
def respC2second : TopologyResponse := ⟨0, "No drones detected", []⟩

/-- Initial poll state for the C2 race. -/
def pollC2 : PollState := ⟨[], LinkHealth.unhealthy, 0⟩

/-- C2: the source applies overlapping completions in completion order with no
sequence guard, so when fetch #1 (issue sequence 1) completes after fetch #2
(issue sequence 2), the stale fetch #1 data is the final published snapshot —
violating most-recent-wins; the sequence-guarded behaviour modelled from the
spec keeps fetch #2's data instead. -/
theorem stale_completion_overwrites_newer :
    (applyCompletions pollC2 [(2, some respC2second), (1, some respC2first)]).devices
        = respC2first.data ∧
      ((applyCompletionsGuarded pollC2 0
          [(2, some respC2second), (1, some respC2first)]).1).devices
        = respC2second.data ∧
      respC2first.data ≠ respC2second.data := by
  refine ⟨rfl, rfl, by decide⟩

/-! ## Claim C3 -/

/-- C3: a poll cycle whose outcome is unauthorized or unhealthy leaves the
published device snapshot and the last-poll timestamp unchanged; only the
link-health state is updated. -/
theorem failed_poll_preserves_snapshot (s : PollState) (now : ℕ)
    (r : Option TopologyResponse)
    (h : (fetchDevicesApply s now r).isLinkHealthy = LinkHealth.unauthorized ∨
      (fetchDevicesApply s now r).isLinkHealthy = LinkHealth.unhealthy) :
    (fetchDevicesApply s now r).devices = s.devices ∧
      (fetchDevicesApply s now r).lastPollTime = s.lastPollTime := by
  cases r with
  | none => simp [fetchDevicesApply]
  | some resp =>
    by_cases h0 : resp.code = 0
    · exfalso
      simp [fetchDevicesApply, h0] at h
    · by_cases h1 : resp.code = 200401 ∨ containsSub resp.message "401" = true
      · simp [fetchDevicesApply, h0, h1]
      · simp [fetchDevicesApply, h0, h1]

/-- Device snapshot held before the C3 failing poll. -/
def devC3 : Device := ⟨"C3-SN", "Three", "M3", false, 0, none, emptyHost⟩

/-- Poll state before the C3 failing poll. -/
def pollC3 : PollState := ⟨[devC3], LinkHealth.healthy, 42⟩

/-- C3 witness: a non-2xx poll (code 500, no auth signal) leaves the snapshot
and timestamp untouched. -/
theorem failed_poll_preserves_snapshot_witness :
    (fetchDevicesApply pollC3 99 (some ⟨500, "boom", []⟩)).devices = pollC3.devices ∧
      (fetchDevicesApply pollC3 99 (some ⟨500, "boom", []⟩)).lastPollTime
        = pollC3.lastPollTime :=
  failed_poll_preserves_snapshot pollC3 99 (some ⟨500, "boom", []⟩) (Or.inr (by decide))

/-! ## Claim C10 -/

/-- C10: a successful poll (code 0) carrying an empty device list replaces the
published snapshot with the empty list, and reconciling that empty snapshot
issues a `remove` for every previously rendered marker and empties the marker
table — last-known-good retention applies only to failed polls. -/
theorem empty_success_clears_markers (s : PollState) (now : ℕ) (msg : String)
    (mks : MarkerMap) :
    (fetchDevicesApply s now (some ⟨0, msg, []⟩)).devices = [] ∧
      reconcile (fetchDevicesApply s now (some ⟨0, msg, []⟩)).devices mks
        = (mks.map (fun e => MapOp.remove e.1), []) := by
  have hdev : (fetchDevicesApply s now (some ⟨0, msg, []⟩)).devices = [] := by
    simp [fetchDevicesApply]
  refine ⟨hdev, ?_⟩
  rw [hdev]
  simp [reconcile, reconcileCore]

/-! ## Claim C4 -/

/-- C4: every poll response produced by `getProjectTopology` that carries an
embedded auth-failure signal — the explicit 200401 error code or a message
containing the "401" marker — is classified as unauthorized link health, never
healthy and never unhealthy, even when the HTTP exchange succeeded (2xx) and
partial data is present. -/
theorem auth_signal_yields_unauthorized (fr : FetchResult) (s : PollState) (now : ℕ)
    (hok : statusWellFormedB fr = true)
    (hsig : (topoOfFetch fr).code = 200401 ∨
      containsSub (topoOfFetch fr).message "401" = true) :
    (fetchDevicesApply s now (some (topoOfFetch fr))).isLinkHealthy
      = LinkHealth.unauthorized := by
  have hclassify : ∀ resp : TopologyResponse, resp.code ≠ 0 →
      (resp.code = 200401 ∨ containsSub resp.message "401" = true) →
      (fetchDevicesApply s now (some resp)).isLinkHealthy = LinkHealth.unauthorized := by
    intro resp h0 h1
    simp [fetchDevicesApply, h0, h1]
  cases fr with
  | netError msg =>
    refine hclassify _ ?_ hsig
    show (-1 : ℤ) ≠ 0
    decide
  | httpError st txt ec =>
    have hst : st ≠ 0 := by
      simp only [statusWellFormedB, decide_eq_true_eq] at hok
      omega
    refine hclassify _ ?_ hsig
    cases ec with
    | none => exact hst
    | some c =>
      by_cases hc : c = 0
      · show (if c = 0 then st else c) ≠ 0
        rw [if_pos hc]
        exact hst
      · show (if c = 0 then st else c) ≠ 0
        rw [if_neg hc]
        exact hc
  | success body =>
    cases body with
    | none =>
      refine hclassify _ ?_ hsig
      show (-1 : ℤ) ≠ 0
      decide
    | some raw =>
      by_cases h0 : jsOrZero raw.code = 0
      · exfalso
        rcases hsig with hc | hm
        · have hc' : jsOrZero raw.code = 200401 := hc
          omega
        · have hm' : containsSub
              (if (processTopology raw.list).isEmpty then "No drones detected"
                else "Success") "401" = true := hm
          by_cases he : (processTopology raw.list).isEmpty
          · rw [if_pos he] at hm'
            exact absurd hm' (by decide)
          · rw [if_neg he] at hm'
            exact absurd hm' (by decide)
      · exact hclassify _ h0 hsig

/-- A valid drone entry carried by the C4 auth-failing body. -/
def hostC4 : RawHost :=
  ⟨some 0, none, none, some "C4-SN", none, some (.bool true), none, none, none, none⟩

/-- C4 witness input: an HTTP-200 body with embedded code 200401 and one
well-formed drone entry (partial data present). -/
def frC4 : FetchResult := .success (some ⟨some 200401, [⟨some hostC4⟩]⟩)

/-- Poll state before the C4 poll. -/
def pollC4 : PollState := ⟨[], LinkHealth.healthy, 0⟩

/-- C4 witness: the HTTP-200 response with embedded auth-failure code 200401 is
classified as unauthorized. -/
theorem auth_signal_yields_unauthorized_witness :
    (fetchDevicesApply pollC4 7 (some (topoOfFetch frC4))).isLinkHealthy
      = LinkHealth.unauthorized :=
  auth_signal_yields_unauthorized frC4 pollC4 7 (by decide) (Or.inl (by decide))

/-! ## Normalizer lemmas and claims C5, C7, C8, C9 -/

theorem normalizeHost_props {h : RawHost} {d : Device} (hn : normalizeHost h = some d) :
    resolveDomain h = some 0 ∧ d.raw = h ∧ d.device_sn = snOf h ∧
      d.status = onlineOf h ∧
      d.telemetry = (if (resolvePos h).1 ≠ 0 ∨ (resolvePos h).2 ≠ 0 ∨ onlineOf h = true
        then some (mkTelemetry h) else none) := by
  unfold normalizeHost at hn
  by_cases h1 : resolveDomain h ≠ some 0
  · rw [if_pos h1] at hn
    cases hn
  · rw [if_neg h1] at hn
    by_cases h2 : snOf h = ""
    · rw [if_pos h2] at hn
      cases hn
    · rw [if_neg h2] at hn
      have hd := Option.some.inj hn
      subst hd
      exact ⟨not_not.mp h1, rfl, rfl, rfl, rfl⟩

/-- C5: for every raw entry the normalizer keeps, the produced device carries a
telemetry sub-record iff its resolved position (after the offline-position
fallback) is non-zero or the device is classified online; otherwise the device
has no telemetry field at all. -/
theorem telemetry_iff_position_or_online (h : RawHost) (d : Device)
    (hn : normalizeHost h = some d) :
    (d.telemetry.isSome = true) ↔
      ((resolvePos h).1 ≠ 0 ∨ (resolvePos h).2 ≠ 0 ∨ onlineOf h = true) := by
  have htel := (normalizeHost_props hn).2.2.2.2
  by_cases hc : (resolvePos h).1 ≠ 0 ∨ (resolvePos h).2 ≠ 0 ∨ onlineOf h = true
  · rw [htel, if_pos hc]
    simp [hc]
  · rw [htel, if_neg hc]
    simp [hc]

/-- The C5 witness raw host: online with every state field absent. -/
def hostC5 : RawHost :=
  ⟨some 0, none, none, some "C5-SN", none, some (.bool true), none, none, none, none⟩

/-- The device the normalizer produces for `hostC5`. -/
def devC5 : Device := ⟨"C5-SN", "Drone", "Drone", true, 0, some (mkTelemetry hostC5), hostC5⟩

/-- C5 witness: the normalizer keeps `hostC5` and attaches telemetry because it
is online, although its resolved position is (0, 0). -/
theorem telemetry_iff_position_or_online_witness :
    (devC5.telemetry.isSome = true) ↔
      ((resolvePos hostC5).1 ≠ 0 ∨ (resolvePos hostC5).2 ≠ 0 ∨ onlineOf hostC5 = true) :=
  telemetry_iff_position_or_online hostC5 devC5 (by decide)

/-- The direct battery percent field (`state.battery.capacity_percent ?? 0`,
0 when the battery object is absent). -/
def directPercent (st : RawState) : ℚ :=
  (st.battery.bind (fun b => b.capacity_percent)).getD 0

/-- The first entry of the batteries list, as a percent (`?? 0`); `none` when
no non-empty list exists. -/
def firstCellPercent (st : RawState) : Option ℚ :=
  (st.battery.bind (fun b => b.batteries)).bind
    (fun cells => cells.head?.map (fun c => c.capacity_percent.getD 0))

/-- C7 example: direct percent 0 with a batteries list `[55]`. -/
def stC7fallback : RawState :=
  { emptyState with battery := some ⟨some 0, some [⟨some 55⟩]⟩ }

/-- C7 example: direct percent 40, no batteries list. -/
def stC7direct : RawState :=
  { emptyState with battery := some ⟨some 40, none⟩ }

/-- C7: the normalized battery percent equals the direct capacity-percent field
when that is non-zero; when it is zero or absent it equals the first entry of
the batteries list when present and non-empty, else 0; the device telemetry
carries exactly this value; and the two concrete examples of the spec hold. -/
theorem battery_resolution :
    (∀ st : RawState,
      (directPercent st ≠ 0 → resolveBattery st = directPercent st) ∧
      (directPercent st = 0 → resolveBattery st = (firstCellPercent st).getD 0)) ∧
    (∀ (h : RawHost) (d : Device) (t : DeviceTelemetry),
      normalizeHost h = some d → d.telemetry = some t →
      t.battery_percent = resolveBattery (stOf h)) ∧
    resolveBattery stC7fallback = 55 ∧ resolveBattery stC7direct = 40 := by
  refine ⟨?_, ?_, by decide, by decide⟩
  · intro st
    cases hb : st.battery with
    | none =>
      constructor
      · intro hne
        exact absurd (by simp [directPercent, hb]) hne
      · intro _
        simp [resolveBattery, firstCellPercent, hb]
    | some b =>
      have hdp : directPercent st = b.capacity_percent.getD 0 := by
        simp [directPercent, hb]
      by_cases hbp : b.capacity_percent.getD 0 = 0
      · constructor
        · intro hne
          exact absurd (hdp.trans hbp) hne
        · intro _
          rcases hbs : b.batteries with _ | ⟨_ | ⟨c, cs⟩⟩ <;>
            simp [resolveBattery, firstCellPercent, hb, hbs, hbp]
      · constructor
        · intro _
          rw [hdp]
          simp [resolveBattery, hb, hbp]
        · intro heq
          exact absurd (hdp ▸ heq) hbp
  · intro h d t hn htel
    have hd := (normalizeHost_props hn).2.2.2.2
    rw [hd] at htel
    by_cases hc : (resolvePos h).1 ≠ 0 ∨ (resolvePos h).2 ≠ 0 ∨ onlineOf h = true
    · rw [if_pos hc] at htel
      have := Option.some.inj htel
      rw [← this]
      rfl
    · rw [if_neg hc] at htel
      cases htel

/-- C7 witness: at the concrete direct-percent example, resolution keeps the
non-zero direct value. -/
theorem battery_resolution_witness :
    resolveBattery stC7direct = directPercent stC7direct :=
  (battery_resolution.1 stC7direct).1 (by decide)

/-- Live latitude as read from the nested state object (`|| 0`). -/
def liveLat (h : RawHost) : ℚ := numOr (stOf h).latitude

/-- Live longitude as read from the nested state object (`|| 0`). -/
def liveLng (h : RawHost) : ℚ := numOr (stOf h).longitude

/-- The last-known offline position (`|| 0` per coordinate), or (0, 0) when the
offline-position object is absent. -/
def offlineFallback (h : RawHost) : ℚ × ℚ :=
  match h.device_offline_position with
  | some op => (numOr op.latitude, numOr op.longitude)
  | none => (0, 0)

/-- C8 example: live position (0, 0) with offline position (12.3, 45.6). -/
def hostC8 : RawHost :=
  ⟨some 0, none, none, some "C8-SN", none, none, none, none,
    some { emptyState with latitude := some 0, longitude := some 0 },
    some ⟨some (123/10), some (456/10)⟩⟩

/-- C8: the normalized position equals the live latitude/longitude unless both
are exactly zero, in which case it equals the offline fallback (which keeps the
zeros when no offline position exists); the device telemetry carries exactly
this position; and the spec's concrete example holds. -/
theorem position_resolution :
    (∀ h : RawHost,
      (¬ (liveLat h = 0 ∧ liveLng h = 0) → resolvePos h = (liveLat h, liveLng h)) ∧
      ((liveLat h = 0 ∧ liveLng h = 0) → resolvePos h = offlineFallback h)) ∧
    (∀ (h : RawHost) (d : Device) (t : DeviceTelemetry),
      normalizeHost h = some d → d.telemetry = some t →
      (t.latitude, t.longitude) = resolvePos h) ∧
    resolvePos hostC8 = (123/10, 456/10) := by
  refine ⟨?_, ?_, rfl⟩
  · intro h
    constructor
    · intro hne
      have hne' : ¬ (numOr (stOf h).latitude = 0 ∧ numOr (stOf h).longitude = 0) := hne
      simp only [resolvePos]
      rw [if_neg hne']
      rfl
    · intro hz
      have hz' : numOr (stOf h).latitude = 0 ∧ numOr (stOf h).longitude = 0 := hz
      simp only [resolvePos]
      rw [if_pos hz']
      cases hoff : h.device_offline_position with
      | none => simp [offlineFallback, hoff, hz'.1, hz'.2]
      | some op => simp [offlineFallback, hoff]
  · intro h d t hn htel
    have hd := (normalizeHost_props hn).2.2.2.2
    rw [hd] at htel
    by_cases hc : (resolvePos h).1 ≠ 0 ∨ (resolvePos h).2 ≠ 0 ∨ onlineOf h = true
    · rw [if_pos hc] at htel
      have ht := Option.some.inj htel
      rw [← ht]
      rfl
    · rw [if_neg hc] at htel
      cases htel

/-- C8 witness: the concrete zero-live-position host resolves to its offline
fallback position. -/
theorem position_resolution_witness :
    resolvePos hostC8 = offlineFallback hostC8 :=
  (position_resolution.1 hostC8).2 (by decide)

/-- C9: a raw host whose resolved domain code — explicit field, else model
sub-record field, else integer prefix of the model-key — is not the aerial
domain 0 never appears (as any kept device's raw record) in the output
snapshot. -/
theorem nonzero_domain_never_in_snapshot (items : List RawItem) (h : RawHost)
    (hd : resolveDomain h ≠ some 0) :
    ¬ h ∈ (processTopology items).map Device.raw := by
  intro hmem
  obtain ⟨d, hdmem, hraw⟩ := List.mem_map.mp hmem
  obtain ⟨it, _, hbind⟩ := List.mem_filterMap.mp hdmem
  cases hh : it.host with
  | none =>
    rw [hh] at hbind
    cases hbind
  | some h2 =>
    rw [hh] at hbind
    rw [Option.some_bind] at hbind
    obtain ⟨hdom, hraw2, _⟩ := normalizeHost_props hbind
    rw [hraw2] at hraw
    rw [hraw] at hdom
    exact hd hdom

/-- A dock-domain host for the C9 witness. -/
def hostC9bad : RawHost :=
  ⟨some 3, none, none, some "C9-DOCK", none, none, none, none, none, none⟩

/-- An aerial-domain host for the C9 witness. -/
def hostC9good : RawHost :=
  ⟨some 0, none, none, some "C9-DRONE", none, none, none, none, none, none⟩

/-- The C9 witness listing: one drone, one dock. -/
def itemsC9 : List RawItem := [⟨some hostC9good⟩, ⟨some hostC9bad⟩]

/-- C9 witness: the dock-domain entry is absent from the processed snapshot. -/
theorem nonzero_domain_never_in_snapshot_witness :
    ¬ hostC9bad ∈ (processTopology itemsC9).map Device.raw :=
  nonzero_domain_never_in_snapshot itemsC9 hostC9bad (by decide)
